import Mathlib

/-!
Verification of the page-layout and pagination engine of `mtg-pdf.py`
(card-image to PDF layout tool).  Lengths are modelled exactly as rational
numbers of PostScript points; the reportlab constant `mm = 72 / 25.4` points
becomes the exact rational `360 / 127`.
-/

set_option autoImplicit false

namespace MtgPdf

/-- reportlab unit: one millimetre in points, `72 / 25.4 = 360 / 127`. -/
def mmPt : ℚ := 360 / 127

/-- reportlab unit: one inch in points. -/
def inchPt : ℚ := 72

/-- Constant `CARD_W_MM = 63.0`: card width in millimetres. -/
def CARD_W_MM : ℚ := 63

/-- Constant `CARD_H_MM = 88.0`: card height in millimetres. -/
def CARD_H_MM : ℚ := 88

/-- A paper size: width and height in points (`PaperSize` of the spec). -/
structure PaperSize where
  w : ℚ
  h : ℚ
deriving DecidableEq, Repr

/-- reportlab `A4 = (210*mm, 297*mm)`. -/
def A4 : PaperSize := ⟨210 * mmPt, 297 * mmPt⟩

/-- reportlab `LETTER = (8.5*inch, 11*inch)`. -/
def LETTER : PaperSize := ⟨(17/2) * inchPt, 11 * inchPt⟩

/-- reportlab `A3 = (297*mm, 420*mm)`. -/
def A3 : PaperSize := ⟨297 * mmPt, 420 * mmPt⟩

/-- The `PAPERS` dict: named papers accepted by `main`. -/
def PAPERS : List (String × PaperSize) :=
  [("a4", A4), ("letter", LETTER), ("a3", A3)]

/-- Page orientation option (`--orientation` choices). -/
inductive Orientation where
  | auto
  | portrait
  | landscape
deriving DecidableEq, Repr

/-- Result of `compute_grid`: `(rows, cols, x0, y0, rotated)`. -/
structure Grid where
  rows : ℤ
  cols : ℤ
  x0 : ℚ
  y0 : ℚ
  rotated : Bool
deriving DecidableEq, Repr

/-- The inner `attempt(pw, ph)` of `compute_grid`: for a candidate page
`pw × ph` points, margin and gap in millimetres, compute
`cols = max(1, (usable_w + gap) // (card_w + gap))`, symmetrically `rows`,
and the centred origin `(x0, y0)`.  Python's float `//` on these positive
divisors is the rational floor. -/
def attempt (margin_mm gap_mm pw ph : ℚ) : ℤ × ℤ × ℚ × ℚ :=
  let usable_w := pw - 2 * margin_mm * mmPt
  let usable_h := ph - 2 * margin_mm * mmPt
  let cols : ℤ := max 1 ⌊(usable_w + gap_mm * mmPt) / (CARD_W_MM * mmPt + gap_mm * mmPt)⌋
  let rows : ℤ := max 1 ⌊(usable_h + gap_mm * mmPt) / (CARD_H_MM * mmPt + gap_mm * mmPt)⌋
  let x0 := (pw - ((cols : ℚ) * CARD_W_MM * mmPt + ((cols : ℚ) - 1) * gap_mm * mmPt)) / 2
  let y0 := (ph - ((rows : ℚ) * CARD_H_MM * mmPt + ((rows : ℚ) - 1) * gap_mm * mmPt)) / 2
  (rows, cols, x0, y0)

/-- Planner `compute_grid(page_w, page_h, margin_mm, gap_mm, orientation)`:
portrait uses the page as given, landscape swaps width and height and sets
`rotated`; auto evaluates both and keeps landscape exactly when it holds
strictly more cards. -/
def compute_grid (page_w page_h margin_mm gap_mm : ℚ)
    (orientation : Orientation) : Grid :=
  match orientation with
  | .portrait =>
      let (r, c, x0, y0) := attempt margin_mm gap_mm page_w page_h
      ⟨r, c, x0, y0, false⟩
  | .landscape =>
      let (r, c, x0, y0) := attempt margin_mm gap_mm page_h page_w
      ⟨r, c, x0, y0, true⟩
  | .auto =>
      let (r1, c1, x1, y1) := attempt margin_mm gap_mm page_w page_h
      let (r2, c2, x2, y2) := attempt margin_mm gap_mm page_h page_w
      if r2 * c2 > r1 * c1 then ⟨r2, c2, x2, y2, true⟩
      else ⟨r1, c1, x1, y1, false⟩

/-! ## The paper-spec parser (`parse_custom_paper`)

The Python code matches the regular expression
`^\s*(\d+(?:\.\d+)?)\s*x\s*(\d+(?:\.\d+)?)(mm|cm|in)?\s*$` (ignore-case).
We embed the matcher as a deterministic character scanner; on these
alternatives greedy scanning agrees with the regex engine (digits never
match `x` or whitespace, and when a trailing unit token is present the
empty-unit alternative can never satisfy the following `\s*$`). -/

/-- ASCII whitespace accepted by the pattern's `\s`. -/
def isSpace (c : Char) : Bool :=
  c = ' ' ∨ c = '\t' ∨ c = '\n' ∨ c = '\r' ∨ c = '\x0b' ∨ c = '\x0c'

/-- Drop a leading run of `\s` characters. -/
def skipSpaces : List Char → List Char
  | [] => []
  | c :: cs => if isSpace c then skipSpaces cs else c :: cs

/-- Split off a leading run of decimal digits. -/
def takeDigits : List Char → List Char × List Char
  | [] => ([], [])
  | c :: cs =>
      if c.isDigit then
        let (d, r) := takeDigits cs
        (c :: d, r)
      else ([], c :: cs)

/-- Numeric value of a digit string, most significant digit first. -/
def digitsVal (ds : List Char) : ℕ :=
  ds.foldl (fun a c => 10 * a + (c.toNat - 48)) 0

/-- Match `\d+(?:\.\d+)?`, returning the matched text (a regex group is a
string) and the rest of the input. -/
def parseNumber (cs : List Char) : Option (List Char × List Char) :=
  let (d, r) := takeDigits cs
  if d.isEmpty then none
  else
    match r with
    | '.' :: r2 =>
        let (f, r3) := takeDigits r2
        if f.isEmpty then some (d, r)
        else some (d ++ '.' :: f, r3)
    | _ => some (d, r)

/-- Python `float(...)` applied to a group matched by `\d+(?:\.\d+)?`,
kept as the exact rational value of the decimal text. -/
def pyFloat (cs : List Char) : ℚ :=
  let (d, r) := takeDigits cs
  match r with
  | '.' :: r2 =>
      let f := (takeDigits r2).1
      (digitsVal d : ℚ) + (digitsVal f : ℚ) / 10 ^ f.length
  | _ => (digitsVal d : ℚ)

/-- Match the optional case-insensitive unit group `(mm|cm|in)?`, returning
the unit lowered (as `unit.lower()` does) when present. -/
def parseUnit (cs : List Char) : Option String × List Char :=
  match cs with
  | a :: b :: r =>
      let l := String.mk [a.toLower, b.toLower]
      if l = "mm" ∨ l = "cm" ∨ l = "in" then (some l, r) else (none, cs)
  | _ => (none, cs)

/-- The full pattern
`^\s*(\d+(?:\.\d+)?)\s*x\s*(\d+(?:\.\d+)?)(mm|cm|in)?\s*$`: returns the two
numeric groups and the optional lowered unit, or `none` when the spec string
does not match. -/
def regex_match (spec : String) : Option (List Char × List Char × Option String) :=
  match parseNumber (skipSpaces spec.data) with
  | none => none
  | some (w, r1) =>
      match skipSpaces r1 with
      | [] => none
      | c :: r2 =>
          if c.toLower = 'x' then
            match parseNumber (skipSpaces r2) with
            | none => none
            | some (h, r3) =>
                let (u, r4) := parseUnit r3
                if (skipSpaces r4).isEmpty then some (w, h, u) else none
          else none

/-- Parser `parse_custom_paper(spec)`: regex-match the spec, apply `float` to the
two groups, default the unit to `"mm"`, and convert to points (`w*mm`,
`w*10*mm`, or `w*25.4*mm`). A non-matching string raises `ValueError` —
modelled as `Except.error`. -/
def parse_custom_paper (spec : String) : Except String PaperSize :=
  match regex_match spec with
  | none => .error "Invalid paper format. Example: 210x297mm or 8.5x11in"
  | some (wg, hg, unitOpt) =>
      let w := pyFloat wg
      let h := pyFloat hg
      let unit := unitOpt.getD "mm"
      if unit = "mm" then .ok ⟨w * mmPt, h * mmPt⟩
      else if unit = "cm" then .ok ⟨w * 10 * mmPt, h * 10 * mmPt⟩
      else if unit = "in" then .ok ⟨w * (254 / 10) * mmPt, h * (254 / 10) * mmPt⟩
      else .error "Unknown units (allowed: mm, cm, in)"

/-- Python `str.strip()`: drop leading and trailing whitespace. -/
def pyStrip (cs : List Char) : List Char :=
  (skipSpaces (skipSpaces cs).reverse).reverse

/-- Python `str.lower()` on ASCII input. -/
def pyLower (cs : List Char) : List Char :=
  cs.map Char.toLower

/-- Paper resolution in `main`:
`paper_key = args.paper.strip().lower()`, look the key up in `PAPERS`,
otherwise fall back to `parse_custom_paper`. -/
def resolvePaper (paper : String) : Except String PaperSize :=
  match PAPERS.lookup (String.mk (pyLower (pyStrip paper.data))) with
  | some p => .ok p
  | none => parse_custom_paper paper

/-! ## Cut-assist renderer and the `make_pdf` drawing trace

`make_pdf` is modelled as the list of drawing events it issues to the
reportlab canvas, in order.  An input image is represented by the one bit
the engine observes about it: whether `drawImage` succeeds (`true`) or
raises (`false`). -/

/-- One `c.line(x1, y1, x2, y2)` segment. -/
structure Seg where
  x1 : ℚ
  y1 : ℚ
  x2 : ℚ
  y2 : ℚ
deriving DecidableEq, Repr

/-- Renderer `draw_crop_marks(c, x, y, w, h, mark_len, offset)`: the eight line
segments around one cell's four corners, in source order
(bottom-left, bottom-right, top-left, top-right; two arms each). -/
def draw_crop_marks (x y w h mark_len offset : ℚ) : List Seg :=
  [⟨x - offset - mark_len, y - offset, x - offset, y - offset⟩,
   ⟨x - offset, y - offset - mark_len, x - offset, y - offset⟩,
   ⟨x + w + offset, y - offset, x + w + offset + mark_len, y - offset⟩,
   ⟨x + w + offset, y - offset - mark_len, x + w + offset, y - offset⟩,
   ⟨x - offset - mark_len, y + h + offset, x - offset, y + h + offset⟩,
   ⟨x - offset, y + h + offset, x - offset, y + h + offset + mark_len⟩,
   ⟨x + w + offset, y + h + offset, x + w + offset + mark_len, y + h + offset⟩,
   ⟨x + w + offset, y + h + offset, x + w + offset, y + h + offset + mark_len⟩]

/-- The crop-mark block drawn at the top of each page: one
`draw_crop_marks` call per grid cell `(grid_row, grid_col)`, with
`mark_len` left at its default `5*mm` and `offset` passed as `0*mm`. -/
def pageCropMarks (rows cols : ℕ) (x0 y0 w h dx dy : ℚ) : List Seg :=
  (List.range rows).flatMap fun grid_row =>
    (List.range cols).flatMap fun grid_col =>
      draw_crop_marks (x0 + (grid_col : ℚ) * dx) (y0 + ((rows - 1 - grid_row : ℕ) : ℚ) * dy)
        w h (5 * mmPt) 0

/-- Source line 182: `slot = i % per_page`. -/
def slotOf (per_page i : ℕ) : ℕ := i % per_page

/-- Source line 183: `row = slot // cols`. -/
def rowOf (cols slot : ℕ) : ℕ := slot / cols

/-- Source line 184: `col = slot % cols`. -/
def colOf (cols slot : ℕ) : ℕ := slot % cols

/-- A canvas event issued by `make_pdf`. -/
inductive Ev where
  | showPage
  | blackBorders
  | cropMarks (segs : List Seg)
  | drawImage (idx slot row col : ℕ) (x y : ℚ)
  | warn (idx : ℕ)
deriving DecidableEq, Repr

/-- The per-page layout state of `make_pdf` after the grid was computed:
flags, realized grid shape, capacity and cell geometry. -/
structure PageCfg where
  cropmarks : Bool
  black_borders : Bool
  rows : ℕ
  cols : ℕ
  per_page : ℕ
  x0 : ℚ
  y0 : ℚ
  w : ℚ
  h : ℚ
  dx : ℚ
  dy : ℚ

/-- Events of one iteration of the image loop: when `i % per_page == 0`
a page boundary is handled (`showPage` unless this is the first image,
then black borders, then crop marks, as enabled), and then the image is
drawn at its slot — or a warning is logged when the draw call raises. -/
def stepEvents (cfg : PageCfg) (i : ℕ) (ok : Bool) : List Ev :=
  (if i % cfg.per_page = 0 then
    (if 0 < i then [Ev.showPage] else []) ++
    (if cfg.black_borders then [Ev.blackBorders] else []) ++
    (if cfg.cropmarks then
      [Ev.cropMarks (pageCropMarks cfg.rows cfg.cols cfg.x0 cfg.y0 cfg.w cfg.h cfg.dx cfg.dy)]
     else [])
   else []) ++
  (let slot := slotOf cfg.per_page i
   let row := rowOf cfg.cols slot
   let col := colOf cfg.cols slot
   let x := cfg.x0 + (col : ℚ) * cfg.dx
   let y := cfg.y0 + ((cfg.rows - 1 - row : ℕ) : ℚ) * cfg.dy
   if ok then [Ev.drawImage i slot row col x y] else [Ev.warn i])

/-- The whole image loop of `make_pdf`: steps `0 .. n-1` in order, step `i`
drawing the `i`-th image. -/
def runEvents (cfg : PageCfg) (ok : ℕ → Bool) (n : ℕ) : List Ev :=
  (List.range n).flatMap fun i => stepEvents cfg i (ok i)

/-- Result of `make_pdf`: the canvas trace plus the returned
`(rows, cols, per_page)`. -/
structure PdfResult where
  events : List Ev
  rows : ℕ
  cols : ℕ
  per_page : ℕ

/-- Assembler `make_pdf(images, out_path, paper_size, margin_mm, gap_mm, cropmarks,
orientation, black_borders)`: compute the grid, re-plan as portrait on the
swapped page when rotated, then run the image loop.  `imgs` records, per
image, whether `drawImage` succeeds. -/
def make_pdf (imgs : List Bool) (paper : PaperSize) (margin_mm gap_mm : ℚ)
    (cropmarks : Bool) (orientation : Orientation) (black_borders : Bool) :
    PdfResult :=
  let g0 := compute_grid paper.w paper.h margin_mm gap_mm orientation
  let g := if g0.rotated then compute_grid paper.h paper.w margin_mm gap_mm .portrait
           else g0
  let rows := g.rows.toNat
  let cols := g.cols.toNat
  let w := CARD_W_MM * mmPt
  let h := CARD_H_MM * mmPt
  let dx := w + gap_mm * mmPt
  let dy := h + gap_mm * mmPt
  let per_page := rows * cols
  let cfg : PageCfg := ⟨cropmarks, black_borders, rows, cols, per_page, g.x0, g.y0, w, h, dx, dy⟩
  ⟨runEvents cfg (fun i => imgs.getD i true) imgs.length, rows, cols, per_page⟩

/-- The console report of `main`:
`f"Done: {total} images → {out} | {rows}*{cols} per page ({per_page}/page), {pages} pages."` -/
def pageReport (total : ℕ) (out : String) (rows cols per_page : ℕ) (pages : ℤ) : String :=
  "Done: " ++ toString total ++ " images → " ++ out ++ " | " ++
    toString rows ++ "*" ++ toString cols ++ " per page (" ++
    toString per_page ++ "/page), " ++ toString pages ++ " pages."

/-- The run driver `main` after argument parsing: resolve the paper
(named or custom), fail when the image list is empty, run `make_pdf`, and
report `math.ceil(total / per_page)` pages.  An `Except.error` result
carries no canvas trace: nothing was drawn. -/
def mainRun (paper : String) (imgs : List Bool) (out : String)
    (margin_mm gap_mm : ℚ) (cropmarks : Bool) (orientation : Orientation)
    (black_borders : Bool) : Except String (PdfResult × ℤ × String) :=
  match resolvePaper paper with
  | .error e => .error e
  | .ok ps =>
      if imgs.isEmpty then
        .error "No images in the folder (supported: .png .jpg/.jpeg)."
      else
        let r := make_pdf imgs ps margin_mm gap_mm cropmarks orientation black_borders
        let pages : ℤ := ⌈(imgs.length : ℚ) / (r.per_page : ℚ)⌉
        .ok (r, pages, pageReport imgs.length out r.rows r.cols r.per_page pages)

/-! ## Helper lemmas -/

/-- One-dimensional strip packing: with a positive cell size, a nonnegative gap, and a
strip at least one cell long, `max 1 ⌊(u + g) / (card + g)⌋` is the floor
itself, it is at least `1`, and that many cells with interior gaps fit in
the strip. -/
lemma strip_fit (u card g : ℚ) (hc : 0 < card) (hg : 0 ≤ g) (hu : card ≤ u) :
    1 ≤ max 1 ⌊(u + g) / (card + g)⌋ ∧
    ((max 1 ⌊(u + g) / (card + g)⌋ : ℤ) : ℚ) * card +
      (((max 1 ⌊(u + g) / (card + g)⌋ : ℤ) : ℚ) - 1) * g ≤ u := by
  have hd : 0 < card + g := by linarith
  have h1 : (1 : ℤ) ≤ ⌊(u + g) / (card + g)⌋ := by
    apply Int.le_floor.mpr
    rw [Int.cast_one, le_div_iff₀ hd]
    linarith
  have hmax : max 1 ⌊(u + g) / (card + g)⌋ = ⌊(u + g) / (card + g)⌋ :=
    max_eq_right h1
  refine ⟨le_max_left _ _, ?_⟩
  rw [hmax]
  have hfl : ((⌊(u + g) / (card + g)⌋ : ℤ) : ℚ) ≤ (u + g) / (card + g) :=
    Int.floor_le _
  have hmul : ((⌊(u + g) / (card + g)⌋ : ℤ) : ℚ) * (card + g) ≤ u + g :=
    (le_div_iff₀ hd).mp hfl
  nlinarith [hmul]

/-! ## C1 -/

/-- C1: for every page size, margin and (nonnegative) gap whose usable area
is at least one 63×88 mm card in each dimension, the grid attempt returns
`rows ≥ 1` and `cols ≥ 1`, and the occupied block fits in the usable area:
`cols*cardW + (cols-1)*gap ≤ usableW` and
`rows*cardH + (rows-1)*gap ≤ usableH`. -/
theorem grid_planner_fits (margin_mm gap_mm pw ph : ℚ)
    (hg : 0 ≤ gap_mm)
    (hw : CARD_W_MM * mmPt ≤ pw - 2 * margin_mm * mmPt)
    (hh : CARD_H_MM * mmPt ≤ ph - 2 * margin_mm * mmPt) :
    1 ≤ (attempt margin_mm gap_mm pw ph).1 ∧
    1 ≤ (attempt margin_mm gap_mm pw ph).2.1 ∧
    (((attempt margin_mm gap_mm pw ph).2.1 : ℤ) : ℚ) * (CARD_W_MM * mmPt) +
        ((((attempt margin_mm gap_mm pw ph).2.1 : ℤ) : ℚ) - 1) * (gap_mm * mmPt) ≤
      pw - 2 * margin_mm * mmPt ∧
    (((attempt margin_mm gap_mm pw ph).1 : ℤ) : ℚ) * (CARD_H_MM * mmPt) +
        ((((attempt margin_mm gap_mm pw ph).1 : ℤ) : ℚ) - 1) * (gap_mm * mmPt) ≤
      ph - 2 * margin_mm * mmPt := by
  have hmm : (0 : ℚ) < mmPt := by norm_num [mmPt]
  have hcW : 0 < CARD_W_MM * mmPt := by norm_num [CARD_W_MM, mmPt]
  have hcH : 0 < CARD_H_MM * mmPt := by norm_num [CARD_H_MM, mmPt]
  have hgp : 0 ≤ gap_mm * mmPt := mul_nonneg hg hmm.le
  have W := strip_fit (pw - 2 * margin_mm * mmPt) (CARD_W_MM * mmPt) (gap_mm * mmPt) hcW hgp hw
  have H := strip_fit (ph - 2 * margin_mm * mmPt) (CARD_H_MM * mmPt) (gap_mm * mmPt) hcH hgp hh
  simp only [attempt]
  exact ⟨H.1, W.1, W.2, H.2⟩

/-- Witness for C1 at A4, margin 5 mm, gap 3 mm. -/
theorem grid_planner_fits_witness :
    ((0 : ℚ) ≤ 3 ∧
      CARD_W_MM * mmPt ≤ 210 * mmPt - 2 * 5 * mmPt ∧
      CARD_H_MM * mmPt ≤ 297 * mmPt - 2 * 5 * mmPt) ∧
    (1 ≤ (attempt 5 3 (210 * mmPt) (297 * mmPt)).1 ∧
      1 ≤ (attempt 5 3 (210 * mmPt) (297 * mmPt)).2.1 ∧
      (((attempt 5 3 (210 * mmPt) (297 * mmPt)).2.1 : ℤ) : ℚ) * (CARD_W_MM * mmPt) +
          ((((attempt 5 3 (210 * mmPt) (297 * mmPt)).2.1 : ℤ) : ℚ) - 1) * ((3 : ℚ) * mmPt) ≤
        210 * mmPt - 2 * 5 * mmPt ∧
      (((attempt 5 3 (210 * mmPt) (297 * mmPt)).1 : ℤ) : ℚ) * (CARD_H_MM * mmPt) +
          ((((attempt 5 3 (210 * mmPt) (297 * mmPt)).1 : ℤ) : ℚ) - 1) * ((3 : ℚ) * mmPt) ≤
        297 * mmPt - 2 * 5 * mmPt) :=
  ⟨⟨by norm_num, by norm_num [CARD_W_MM, mmPt], by norm_num [CARD_H_MM, mmPt]⟩,
    grid_planner_fits 5 3 (210 * mmPt) (297 * mmPt) (by norm_num)
      (by norm_num [CARD_W_MM, mmPt]) (by norm_num [CARD_H_MM, mmPt])⟩

/-! ## C3 -/

/-- C3: with orientation Auto the planner evaluates the portrait attempt
and the landscape attempt (the page with width and height swapped), sets
`rotated` exactly when the landscape `rows*cols` product is strictly
greater, and on ties (or a portrait win) returns the portrait attempt with
`rotated = false`. -/
theorem auto_orientation (pw ph margin_mm gap_mm : ℚ) :
    ((compute_grid pw ph margin_mm gap_mm .auto).rotated =
      ((attempt margin_mm gap_mm pw ph).1 * (attempt margin_mm gap_mm pw ph).2.1 <
        (attempt margin_mm gap_mm ph pw).1 * (attempt margin_mm gap_mm ph pw).2.1)) ∧
    compute_grid pw ph margin_mm gap_mm .auto =
      (if (attempt margin_mm gap_mm pw ph).1 * (attempt margin_mm gap_mm pw ph).2.1 <
          (attempt margin_mm gap_mm ph pw).1 * (attempt margin_mm gap_mm ph pw).2.1 then
        ⟨(attempt margin_mm gap_mm ph pw).1, (attempt margin_mm gap_mm ph pw).2.1,
          (attempt margin_mm gap_mm ph pw).2.2.1, (attempt margin_mm gap_mm ph pw).2.2.2, true⟩
      else
        ⟨(attempt margin_mm gap_mm pw ph).1, (attempt margin_mm gap_mm pw ph).2.1,
          (attempt margin_mm gap_mm pw ph).2.2.1, (attempt margin_mm gap_mm pw ph).2.2.2,
          false⟩) := by
  refine ⟨?_, ?_⟩
  · simp only [compute_grid, gt_iff_lt]
    split <;> simp_all
  · simp only [compute_grid, gt_iff_lt]

/-! ## C10 -/

/-- C10: for every image index `i` and a grid with `rows ≥ 1`, `cols ≥ 1`
and capacity `rows*cols`, the computed slot coordinates satisfy
`row < rows` and `col < cols` (they are naturals, so `0 ≤` is automatic);
consequently every `drawImage` event of a `make_pdf` run with such a grid
places its image inside the planned grid. -/
theorem slot_within_grid (rows cols i : ℕ) (hr : 1 ≤ rows) (hc : 1 ≤ cols) :
    rowOf cols (slotOf (rows * cols) i) < rows ∧
    colOf cols (slotOf (rows * cols) i) < cols ∧
    ∀ (cfg : PageCfg) (ok : ℕ → Bool) (n j slot row col : ℕ) (x y : ℚ),
      cfg.rows = rows → cfg.cols = cols → cfg.per_page = rows * cols →
      Ev.drawImage j slot row col x y ∈ runEvents cfg ok n →
      row < rows ∧ col < cols := by
  have hper : 0 < rows * cols := Nat.mul_pos hr hc
  have key : ∀ m, rowOf cols (slotOf (rows * cols) m) < rows ∧
      colOf cols (slotOf (rows * cols) m) < cols := by
    intro m
    constructor
    · have hslot : slotOf (rows * cols) m < rows * cols := Nat.mod_lt _ hper
      exact (Nat.div_lt_iff_lt_mul hc).mpr hslot
    · exact Nat.mod_lt _ hc
  refine ⟨(key i).1, (key i).2, ?_⟩
  intro cfg ok n j slot row col x y hrows hcols hper' hmem
  simp only [runEvents, List.mem_flatMap] at hmem
  obtain ⟨m, _, hm⟩ := hmem
  simp only [stepEvents, List.mem_append] at hm
  rcases hm with hpage | himg
  · split at hpage
    · simp only [List.mem_append] at hpage
      rcases hpage with (hpage | hpage) | hpage <;> split at hpage <;>
        simp_all
    · simp at hpage
  · split at himg <;> simp only [List.mem_singleton] at himg
    · cases himg
      rw [hcols, hper']
      exact ⟨(key _).1, (key _).2⟩
    · cases himg

/-- Witness for C10 at a 3×3 grid and image index 7. -/
theorem slot_within_grid_witness :
    (1 ≤ 3 ∧ 1 ≤ 3) ∧
    (rowOf 3 (slotOf (3 * 3) 7) < 3 ∧ colOf 3 (slotOf (3 * 3) 7) < 3 ∧
      ∀ (cfg : PageCfg) (ok : ℕ → Bool) (n j slot row col : ℕ) (x y : ℚ),
        cfg.rows = 3 → cfg.cols = 3 → cfg.per_page = 3 * 3 →
        Ev.drawImage j slot row col x y ∈ runEvents cfg ok n →
        row < 3 ∧ col < 3) :=
  ⟨⟨by decide, by decide⟩, slot_within_grid 3 3 7 (by decide) (by decide)⟩

/-! ## Counting events in a run -/

/-- Recognizes a `showPage` event. -/
def isShow : Ev → Bool
  | .showPage => true
  | _ => false

/-- Recognizes a crop-marks block. -/
def isCrop : Ev → Bool
  | .cropMarks _ => true
  | _ => false

/-- Recognizes the `drawImage` event of image `i`. -/
def isDrawOf (i : ℕ) : Ev → Bool
  | .drawImage j _ _ _ _ _ => j = i
  | _ => false

/-- Recognizes the warning logged for image `i`. -/
def isWarnOf (i : ℕ) : Ev → Bool
  | .warn j => j = i
  | _ => false

lemma runEvents_zero (cfg : PageCfg) (ok : ℕ → Bool) :
    runEvents cfg ok 0 = [] := rfl

lemma runEvents_succ (cfg : PageCfg) (ok : ℕ → Bool) (n : ℕ) :
    runEvents cfg ok (n + 1) = runEvents cfg ok n ++ stepEvents cfg n (ok n) := by
  simp [runEvents, List.range_succ]

/-- The `showPage` count contributed by one loop step. -/
lemma countP_step_show (cfg : PageCfg) (i : ℕ) (b : Bool) :
    (stepEvents cfg i b).countP isShow =
      if i % cfg.per_page = 0 ∧ 0 < i then 1 else 0 := by
  simp only [stepEvents, List.countP_append]
  by_cases h1 : i % cfg.per_page = 0 <;> by_cases h2 : 0 < i <;>
    cases hb : cfg.black_borders <;> cases hc : cfg.cropmarks <;> cases b <;>
      simp [h1, h2, hb, hc, isShow, List.countP_cons, List.countP_nil]

/-- Crop-marks count contributed by one loop step. -/
lemma countP_step_crop (cfg : PageCfg) (i : ℕ) (b : Bool) :
    (stepEvents cfg i b).countP isCrop =
      if i % cfg.per_page = 0 ∧ cfg.cropmarks then 1 else 0 := by
  simp only [stepEvents, List.countP_append]
  by_cases h1 : i % cfg.per_page = 0 <;> by_cases h2 : 0 < i <;>
    cases hb : cfg.black_borders <;> cases hc : cfg.cropmarks <;> cases b <;>
      simp [h1, h2, hb, hc, isCrop, List.countP_cons, List.countP_nil]

/-- The `drawImage`-for-`j` count contributed by one loop step. -/
lemma countP_step_drawOf (cfg : PageCfg) (i j : ℕ) (b : Bool) :
    (stepEvents cfg i b).countP (isDrawOf j) =
      if i = j ∧ b = true then 1 else 0 := by
  simp only [stepEvents, List.countP_append]
  have hpage : (if i % cfg.per_page = 0 then
      (if 0 < i then [Ev.showPage] else []) ++
      (if cfg.black_borders then [Ev.blackBorders] else []) ++
      (if cfg.cropmarks then
        [Ev.cropMarks (pageCropMarks cfg.rows cfg.cols cfg.x0 cfg.y0 cfg.w cfg.h cfg.dx cfg.dy)]
       else [])
     else []).countP (isDrawOf j) = 0 := by
    split <;> [skip; rfl]
    simp only [List.countP_append]
    split <;> split <;> split <;> simp [List.countP_cons, isDrawOf]
  rw [hpage]
  cases b <;> simp [List.countP_cons, isDrawOf]

/-- The `warn`-for-`j` count contributed by one loop step. -/
lemma countP_step_warnOf (cfg : PageCfg) (i j : ℕ) (b : Bool) :
    (stepEvents cfg i b).countP (isWarnOf j) =
      if i = j ∧ b = false then 1 else 0 := by
  simp only [stepEvents, List.countP_append]
  have hpage : (if i % cfg.per_page = 0 then
      (if 0 < i then [Ev.showPage] else []) ++
      (if cfg.black_borders then [Ev.blackBorders] else []) ++
      (if cfg.cropmarks then
        [Ev.cropMarks (pageCropMarks cfg.rows cfg.cols cfg.x0 cfg.y0 cfg.w cfg.h cfg.dx cfg.dy)]
       else [])
     else []).countP (isWarnOf j) = 0 := by
    split <;> [skip; rfl]
    simp only [List.countP_append]
    split <;> split <;> split <;> simp [List.countP_cons, isWarnOf]
  rw [hpage]
  cases b <;> simp [List.countP_cons, isWarnOf]

/-- Event counts over a whole run are sums of the per-step counts. -/
lemma countP_runEvents (p : Ev → Bool) (cfg : PageCfg) (ok : ℕ → Bool) (n : ℕ) :
    (runEvents cfg ok n).countP p =
      ((List.range n).map (fun i => (stepEvents cfg i (ok i)).countP p)).sum := by
  induction n with
  | zero => rfl
  | succ n ih =>
      rw [runEvents_succ, List.countP_append p, ih, List.range_succ]
      simp

/-! ## Ceiling-division arithmetic -/

/-- One step of ceiling division: `⌈n/per⌉` plus the page-boundary
indicator at `n` equals `n/per + 1`. -/
lemma ceil_chunk (per n : ℕ) (hper : 0 < per) :
    (n + per - 1) / per + (if n % per = 0 then 1 else 0) = n / per + 1 := by
  obtain ⟨q, r, hr, rfl⟩ : ∃ q r, r < per ∧ n = per * q + r :=
    ⟨n / per, n % per, Nat.mod_lt _ hper, (Nat.div_add_mod n per).symm⟩
  have hmod : (per * q + r) % per = r := by
    rw [Nat.mul_add_mod, Nat.mod_eq_of_lt hr]
  have hdiv : (per * q + r) / per = q := by
    rw [Nat.mul_add_div hper, Nat.div_eq_of_lt hr, Nat.add_zero]
  rw [hmod, hdiv]
  by_cases h0 : r = 0
  · subst h0
    have e1 : per * q + 0 + per - 1 = per * q + (per - 1) := by
      generalize per * q = k
      omega
    rw [if_pos rfl, e1, Nat.mul_add_div hper, Nat.div_eq_of_lt (by omega)]
  · have e1 : per * q + r + per - 1 = per * (q + 1) + (r - 1) := by
      rw [Nat.mul_succ]
      generalize per * q = k
      omega
    rw [if_neg h0, e1, Nat.mul_add_div hper, Nat.div_eq_of_lt (by omega)]

/-- The number of indices `i < n` with `i % per = 0` (loop steps that open
a page) is `(n + per - 1) / per`, the ceiling of `n / per`. -/
lemma count_multiples (per : ℕ) (hper : 0 < per) (n : ℕ) :
    ((List.range n).map (fun i => if i % per = 0 then 1 else 0)).sum =
      (n + per - 1) / per := by
  induction n with
  | zero => simp [Nat.div_eq_of_lt (Nat.sub_lt hper Nat.one_pos)]
  | succ n ih =>
      rw [List.range_succ, List.map_append, List.sum_append, ih]
      have e1 : n + 1 + per - 1 = n + per := by omega
      rw [e1, Nat.add_div_right _ hper]
      simpa using ceil_chunk per n hper

/-- Dropping the step `i = 0` from the page-boundary count removes exactly
one page boundary (when the run is nonempty). -/
lemma count_show_aux (per n : ℕ) :
    ((List.range n).map (fun i => if i % per = 0 ∧ 0 < i then 1 else 0)).sum +
      (if 0 < n then 1 else 0) =
      ((List.range n).map (fun i => if i % per = 0 then 1 else 0)).sum := by
  induction n with
  | zero => simp
  | succ n ih =>
      rw [List.range_succ, List.map_append, List.sum_append,
        List.map_append, List.sum_append]
      simp only [List.map_cons, List.map_nil, List.sum_cons, List.sum_nil]
      rcases Nat.eq_zero_or_pos n with rfl | hn'
      · simp
      · by_cases h : n % per = 0 <;> simp [h, hn'] at ih ⊢ <;> omega


/-- Python `math.ceil(n / per)` over the rationals agrees with the natural-number
ceiling `(n + per - 1) / per`. -/
lemma ceil_cast (n per : ℕ) (hper : 0 < per) :
    ⌈(n : ℚ) / (per : ℚ)⌉ = (((n + per - 1) / per : ℕ) : ℤ) := by
  rcases Nat.eq_zero_or_pos n with rfl | hn
  · simp [Nat.div_eq_of_lt (Nat.sub_lt hper Nat.one_pos)]
  · have hperQ : (0 : ℚ) < (per : ℚ) := by exact_mod_cast hper
    have hm : (n + per - 1) / per = (n - 1) / per + 1 := by
      have e : n + per - 1 = (n - 1) + per := by omega
      rw [e, Nat.add_div_right _ hper]
    obtain ⟨q, hq⟩ : ∃ q, (n - 1) / per = q := ⟨_, rfl⟩
    have hdm := Nat.div_add_mod (n - 1) per
    have hmlt : (n - 1) % per < per := Nat.mod_lt _ hper
    rw [hq] at hm hdm
    have hlow : per * q < n := by omega
    have hhigh : n ≤ per * q + per := by omega
    rw [hm, Int.ceil_eq_iff]
    constructor
    · push_cast
      rw [show ((q : ℚ) + 1) - 1 = (q : ℚ) by ring, lt_div_iff₀ hperQ]
      have hc : ((per * q : ℕ) : ℚ) < (n : ℚ) := by exact_mod_cast hlow
      push_cast at hc
      nlinarith
    · push_cast
      rw [div_le_iff₀ hperQ]
      have hc : (n : ℚ) ≤ ((per * q + per : ℕ) : ℚ) := by exact_mod_cast hhigh
      push_cast at hc
      nlinarith

/-- The `showPage` count of a run, plus one for the implicitly opened first
page of a nonempty run, is the ceiling `⌈n / per_page⌉`. -/
lemma count_show_run (cfg : PageCfg) (ok : ℕ → Bool) (n : ℕ)
    (hper : 0 < cfg.per_page) :
    (runEvents cfg ok n).countP isShow + (if 0 < n then 1 else 0) =
      (n + cfg.per_page - 1) / cfg.per_page := by
  rw [countP_runEvents]
  simp only [countP_step_show]
  rw [count_show_aux, count_multiples _ hper]

/-! ## C2 -/

/-- C2: with a grid capacity `per_page ≥ 1`, the `i`-th image (0-based) is
assigned `slot = i % per_page`, `row = slot / cols`, `col = slot % cols`
(and when it draws, its `drawImage` event with exactly those coordinates is
in the run's trace); the number of pages opened during steps `0..i` is
`i / per_page + 1`, i.e. its 0-based page index is `i / per_page`; the
total page count (`showPage` count plus the implicitly opened first page)
equals `math.ceil(n / per_page)`; and slot values cycle with period
`per_page` across pages. -/
theorem pagination_assignment (cfg : PageCfg) (ok : ℕ → Bool) (n i : ℕ)
    (hper : 0 < cfg.per_page) (hin : i < n) :
    (ok i = true →
      Ev.drawImage i (slotOf cfg.per_page i) (rowOf cfg.cols (slotOf cfg.per_page i))
        (colOf cfg.cols (slotOf cfg.per_page i))
        (cfg.x0 + (colOf cfg.cols (slotOf cfg.per_page i) : ℚ) * cfg.dx)
        (cfg.y0 + ((cfg.rows - 1 - rowOf cfg.cols (slotOf cfg.per_page i) : ℕ) : ℚ) * cfg.dy) ∈
        runEvents cfg ok n) ∧
    slotOf cfg.per_page i = i % cfg.per_page ∧
    rowOf cfg.cols (slotOf cfg.per_page i) = (i % cfg.per_page) / cfg.cols ∧
    colOf cfg.cols (slotOf cfg.per_page i) = (i % cfg.per_page) % cfg.cols ∧
    (runEvents cfg ok (i + 1)).countP isShow = i / cfg.per_page ∧
    ((runEvents cfg ok n).countP isShow + 1 : ℤ) = ⌈(n : ℚ) / (cfg.per_page : ℚ)⌉ ∧
    slotOf cfg.per_page (i + cfg.per_page) = slotOf cfg.per_page i := by
  refine ⟨?_, rfl, rfl, rfl, ?_, ?_, ?_⟩
  · intro hok
    simp only [runEvents, List.mem_flatMap]
    exact ⟨i, List.mem_range.mpr hin, by simp [stepEvents, hok]⟩
  · have h := count_show_run cfg ok (i + 1) hper
    rw [if_pos (Nat.succ_pos i)] at h
    have e1 : i + 1 + cfg.per_page - 1 = i + cfg.per_page := by omega
    rw [e1, Nat.add_div_right _ hper] at h
    omega
  · have h := count_show_run cfg ok n hper
    rw [if_pos (by omega : 0 < n)] at h
    rw [ceil_cast n cfg.per_page hper, ← h]
    push_cast
    ring
  · simp [slotOf, Nat.add_mod_right]

/-- Witness for C2: a 3×3 grid (capacity 9), 10 images all loading, image
index 9 (the one on the second page). -/
theorem pagination_assignment_witness :
    (0 < 9 ∧ 9 < 10) ∧
    ((true = true →
      Ev.drawImage 9 (slotOf 9 9) (rowOf 3 (slotOf 9 9)) (colOf 3 (slotOf 9 9))
        ((0 : ℚ) + (colOf 3 (slotOf 9 9) : ℚ) * 0)
        ((0 : ℚ) + ((3 - 1 - rowOf 3 (slotOf 9 9) : ℕ) : ℚ) * 0) ∈
        runEvents (PageCfg.mk false false 3 3 9 0 0 0 0 0 0) (fun _ => true) 10) ∧
    slotOf 9 9 = 9 % 9 ∧
    rowOf 3 (slotOf 9 9) = (9 % 9) / 3 ∧
    colOf 3 (slotOf 9 9) = (9 % 9) % 3 ∧
    (runEvents (PageCfg.mk false false 3 3 9 0 0 0 0 0 0) (fun _ => true) (9 + 1)).countP
        isShow = 9 / 9 ∧
    ((runEvents (PageCfg.mk false false 3 3 9 0 0 0 0 0 0) (fun _ => true) 10).countP
        isShow + 1 : ℤ) = ⌈((10 : ℕ) : ℚ) / ((9 : ℕ) : ℚ)⌉ ∧
    slotOf 9 (9 + 9) = slotOf 9 9) :=
  ⟨⟨by decide, by decide⟩,
    pagination_assignment (PageCfg.mk false false 3 3 9 0 0 0 0 0 0)
      (fun _ => true) 10 9 (by decide) (by decide)⟩

/-! ## C5 -/

/-- Each page's crop-mark block holds `rows * cols * 8` line segments:
eight per grid cell, for the whole grid. -/
lemma pageCropMarks_length (rows cols : ℕ) (x0 y0 w h dx dy : ℚ) :
    (pageCropMarks rows cols x0 y0 w h dx dy).length = rows * cols * 8 := by
  unfold pageCropMarks
  rw [List.length_flatMap]
  have hconst : (List.length ∘ fun grid_row =>
      (List.range cols).flatMap fun grid_col =>
        draw_crop_marks (x0 + (grid_col : ℚ) * dx)
          (y0 + ((rows - 1 - grid_row : ℕ) : ℚ) * dy) w h (5 * mmPt) 0) =
      fun _ => cols * 8 := by
    funext grid_row
    simp only [Function.comp_apply]
    rw [List.length_flatMap]
    have h8 : (List.length ∘ fun grid_col : ℕ =>
        draw_crop_marks (x0 + (grid_col : ℚ) * dx)
          (y0 + ((rows - 1 - grid_row : ℕ) : ℚ) * dy) w h (5 * mmPt) 0) =
        fun _ : ℕ => 8 := funext fun _ => rfl
    rw [h8]
    simp [List.map_const, Nat.mul_comm]
  rw [hconst]
  simp [List.map_const, Nat.mul_comm, Nat.mul_assoc]

/-- C5: when crop marks are enabled, every opened page of a run — the last,
partially filled one included — carries one crop-mark block, each drawn for
exactly `rows*cols` grid cells with eight line segments per cell,
regardless of how many images occupy the page: the number of blocks is
`⌈n / per_page⌉` and every block has `rows*cols*8` segments. -/
theorem crop_marks_full_grid (cfg : PageCfg) (ok : ℕ → Bool) (n : ℕ)
    (hper : 0 < cfg.per_page) (hcrop : cfg.cropmarks = true) :
    ((runEvents cfg ok n).countP isCrop : ℤ) = ⌈(n : ℚ) / (cfg.per_page : ℚ)⌉ ∧
    ∀ segs, Ev.cropMarks segs ∈ runEvents cfg ok n →
      segs.length = cfg.rows * cfg.cols * 8 := by
  constructor
  · rw [countP_runEvents]
    simp only [countP_step_crop, hcrop, and_true]
    rw [count_multiples _ hper, ceil_cast n cfg.per_page hper]
  · intro segs hmem
    simp only [runEvents, List.mem_flatMap] at hmem
    obtain ⟨m, _, hm⟩ := hmem
    simp only [stepEvents, List.mem_append] at hm
    rcases hm with hpage | himg
    · split at hpage
      · simp only [List.mem_append] at hpage
        rcases hpage with (hpage | hpage) | hpage
        · split at hpage <;> simp_all
        · split at hpage <;> simp_all
        · simp_all [pageCropMarks_length]
      · simp at hpage
    · split at himg <;> simp only [List.mem_singleton] at himg <;> cases himg

/-- Witness for C5: a 3×3 grid with crop marks enabled and 10 images, the
second page holding a single image. -/
theorem crop_marks_full_grid_witness :
    (0 < 9 ∧ true = true) ∧
    (((runEvents (PageCfg.mk true false 3 3 9 0 0 0 0 0 0) (fun _ => true) 10).countP
        isCrop : ℤ) = ⌈((10 : ℕ) : ℚ) / ((9 : ℕ) : ℚ)⌉ ∧
    ∀ segs, Ev.cropMarks segs ∈
        runEvents (PageCfg.mk true false 3 3 9 0 0 0 0 0 0) (fun _ => true) 10 →
      segs.length = 3 * 3 * 8) :=
  ⟨⟨by decide, rfl⟩,
    crop_marks_full_grid (PageCfg.mk true false 3 3 9 0 0 0 0 0 0)
      (fun _ => true) 10 (by decide) rfl⟩

/-! ## C8 -/

/-- Sum of a point-mass indicator over `List.range n`. -/
lemma sum_indicator_range (n j : ℕ) (f : ℕ → ℕ) :
    ((List.range n).map (fun i => if i = j then f i else 0)).sum =
      if j < n then f j else 0 := by
  induction n with
  | zero => simp
  | succ n ih =>
      rw [List.range_succ, List.map_append, List.sum_append, ih]
      simp only [List.map_cons, List.map_nil, List.sum_cons, List.sum_nil]
      by_cases h : n = j
      · subst h
        simp
      · rw [if_neg h]
        by_cases h2 : j < n
        · rw [if_pos h2, if_pos (by omega)]
          omega
        · rw [if_neg h2, if_neg (by omega)]
          omega

/-- C8: an image whose draw call raises is logged exactly once as a warning
and no `drawImage` event is emitted for it — its slot stays empty — while
the run still completes every other image: each image `j` that loads is
drawn exactly once, at the position determined by `j` alone (the slot index
advances across failures; later images are not compacted into the failed
slot), and no failure aborts the run. -/
theorem image_failure_skipped (cfg : PageCfg) (ok : ℕ → Bool) (n i : ℕ)
    (hin : i < n) (hfail : ok i = false) :
    (runEvents cfg ok n).countP (isWarnOf i) = 1 ∧
    (runEvents cfg ok n).countP (isDrawOf i) = 0 ∧
    ∀ j, j < n → ok j = true →
      (runEvents cfg ok n).countP (isDrawOf j) = 1 ∧
      Ev.drawImage j (slotOf cfg.per_page j) (rowOf cfg.cols (slotOf cfg.per_page j))
        (colOf cfg.cols (slotOf cfg.per_page j))
        (cfg.x0 + (colOf cfg.cols (slotOf cfg.per_page j) : ℚ) * cfg.dx)
        (cfg.y0 + ((cfg.rows - 1 - rowOf cfg.cols (slotOf cfg.per_page j) : ℕ) : ℚ) * cfg.dy) ∈
        runEvents cfg ok n := by
  refine ⟨?_, ?_, ?_⟩
  · rw [countP_runEvents]
    simp only [countP_step_warnOf]
    have e : (fun k => if k = i ∧ ok k = false then 1 else 0) =
        fun k => if k = i then (if ok k = false then 1 else 0) else 0 := by
      funext k
      by_cases h1 : k = i <;> by_cases h2 : ok k = false <;> simp [h1, h2]
    rw [e, sum_indicator_range, if_pos hin, if_pos hfail]
  · rw [countP_runEvents]
    simp only [countP_step_drawOf]
    have e : (fun k => if k = i ∧ ok k = true then 1 else 0) =
        fun k => if k = i then (if ok k = true then 1 else 0) else 0 := by
      funext k
      by_cases h1 : k = i <;> by_cases h2 : ok k = true <;> simp [h1, h2]
    rw [e, sum_indicator_range, if_pos hin, if_neg (by simp [hfail])]
  · intro j hj hok
    constructor
    · rw [countP_runEvents]
      simp only [countP_step_drawOf]
      have e : (fun k => if k = j ∧ ok k = true then 1 else 0) =
          fun k => if k = j then (if ok k = true then 1 else 0) else 0 := by
        funext k
        by_cases h1 : k = j <;> by_cases h2 : ok k = true <;> simp [h1, h2]
      rw [e, sum_indicator_range, if_pos hj, if_pos hok]
    · simp only [runEvents, List.mem_flatMap]
      exact ⟨j, List.mem_range.mpr hj, by simp [stepEvents, hok]⟩

/-- Witness for C8: a 3×3 grid, 10 images of which image 3 fails to load. -/
theorem image_failure_skipped_witness :
    (3 < 10 ∧ (fun k => k != 3) 3 = false) ∧
    ((runEvents (PageCfg.mk false false 3 3 9 0 0 0 0 0 0) (fun k => k != 3) 10).countP
        (isWarnOf 3) = 1 ∧
    (runEvents (PageCfg.mk false false 3 3 9 0 0 0 0 0 0) (fun k => k != 3) 10).countP
        (isDrawOf 3) = 0 ∧
    ∀ j, j < 10 → (fun k => k != 3) j = true →
      (runEvents (PageCfg.mk false false 3 3 9 0 0 0 0 0 0) (fun k => k != 3) 10).countP
          (isDrawOf j) = 1 ∧
      Ev.drawImage j (slotOf 9 j) (rowOf 3 (slotOf 9 j)) (colOf 3 (slotOf 9 j))
        ((0 : ℚ) + (colOf 3 (slotOf 9 j) : ℚ) * 0)
        ((0 : ℚ) + ((3 - 1 - rowOf 3 (slotOf 9 j) : ℕ) : ℚ) * 0) ∈
        runEvents (PageCfg.mk false false 3 3 9 0 0 0 0 0 0) (fun k => k != 3) 10) :=
  ⟨⟨by decide, by decide⟩,
    image_failure_skipped (PageCfg.mk false false 3 3 9 0 0 0 0 0 0)
      (fun k => k != 3) 10 3 (by decide) (by decide)⟩

/-! ## C7 -/

/-- C7: a paper string that is neither a known paper name (after
strip+lowercase) nor a match for the `<number>x<number><unit>?` pattern
makes the run fail with the invalid-paper error before `make_pdf` is ever
entered: the result is `Except.error` with the parser's message, so no
page is opened and no document mutation happens, and the error is
surfaced to the caller rather than silently defaulted. -/
theorem invalid_paper_aborts (paper out : String) (imgs : List Bool)
    (margin_mm gap_mm : ℚ) (cropmarks : Bool) (orientation : Orientation)
    (black_borders : Bool)
    (hname : PAPERS.lookup (String.mk (pyLower (pyStrip paper.data))) = none)
    (hpat : regex_match paper = none) :
    mainRun paper imgs out margin_mm gap_mm cropmarks orientation black_borders =
      .error "Invalid paper format. Example: 210x297mm or 8.5x11in" := by
  unfold mainRun resolvePaper parse_custom_paper
  rw [hname, hpat]

/-- Witness for C7 at the unparsable paper string "210x". -/
theorem invalid_paper_aborts_witness :
    (PAPERS.lookup (String.mk (pyLower (pyStrip "210x".data))) = none ∧
      regex_match "210x" = none) ∧
    mainRun "210x" [true] "cards_print.pdf" 5 3 false .auto false =
      .error "Invalid paper format. Example: 210x297mm or 8.5x11in" :=
  ⟨⟨by decide, by decide⟩,
    invalid_paper_aborts "210x" "cards_print.pdf" [true] 5 3 false .auto false
      (by decide) (by decide)⟩

/-! ## C9 -/

/-- A parsed decimal group has a nonnegative value. -/
lemma pyFloat_nonneg (cs : List Char) : 0 ≤ pyFloat cs := by
  unfold pyFloat
  split
  split <;> positivity

/-- C9 counterexample: the resolver accepts the free-form spec "0x297mm"
and produces a paper of width zero, so not every produced PaperSize has
strictly positive dimensions. -/
theorem paper_zero_width_counterexample :
    ∃ p, resolvePaper "0x297mm" = .ok p ∧ ¬(0 < p.w ∧ 0 < p.h) := by
  refine ⟨⟨0 * mmPt, 297 * mmPt⟩, ?_, ?_⟩
  · have hname : PAPERS.lookup (String.mk (pyLower (pyStrip "0x297mm".data))) = none := by
      decide
    have hpat : regex_match "0x297mm" = some (['0'], ['2', '9', '7'], some "mm") := by
      decide
    have e0 : pyFloat ['0'] = 0 := by
      have h1 : takeDigits ['0'] = (['0'], []) := by decide
      have h2 : digitsVal ['0'] = 0 := by decide
      simp [pyFloat, h1, h2]
    have e297 : pyFloat ['2', '9', '7'] = 297 := by
      have h1 : takeDigits ['2', '9', '7'] = (['2', '9', '7'], []) := by decide
      have h2 : digitsVal ['2', '9', '7'] = 297 := by decide
      simp [pyFloat, h1, h2]
    unfold resolvePaper parse_custom_paper
    rw [hname, hpat]
    simp [e0, e297]
  · norm_num [mmPt]

/-- C9 amended: every PaperSize the resolver produces has nonnegative
width and height (a free-form spec with a zero numeric field yields a zero
dimension), and every named paper in `PAPERS` is strictly positive. -/
theorem resolver_paper_nonneg (s : String) (p : PaperSize)
    (h : resolvePaper s = .ok p) :
    (0 ≤ p.w ∧ 0 ≤ p.h) ∧ ∀ q ∈ PAPERS, 0 < q.2.w ∧ 0 < q.2.h := by
  have hmm : (0 : ℚ) < mmPt := by norm_num [mmPt]
  refine ⟨?_, ?_⟩
  · unfold resolvePaper at h
    rcases hl : PAPERS.lookup (String.mk (pyLower (pyStrip s.data))) with _ | q
    · rw [hl] at h
      unfold parse_custom_paper at h
      rcases hm : regex_match s with _ | ⟨wg, hg, u⟩
      · rw [hm] at h
        exact absurd h (by simp)
      · rw [hm] at h
        simp only [] at h
        split at h
        · injection h with h1
          subst h1
          exact ⟨mul_nonneg (pyFloat_nonneg _) hmm.le,
            mul_nonneg (pyFloat_nonneg _) hmm.le⟩
        · split at h
          · injection h with h1
            subst h1
            exact ⟨mul_nonneg (mul_nonneg (pyFloat_nonneg _) (by norm_num)) hmm.le,
              mul_nonneg (mul_nonneg (pyFloat_nonneg _) (by norm_num)) hmm.le⟩
          · split at h
            · injection h with h1
              subst h1
              exact ⟨mul_nonneg (mul_nonneg (pyFloat_nonneg _) (by norm_num)) hmm.le,
                mul_nonneg (mul_nonneg (pyFloat_nonneg _) (by norm_num)) hmm.le⟩
            · exact absurd h (by simp)
    · rw [hl] at h
      simp only [Except.ok.injEq] at h
      subst h
      have hq : q = A4 ∨ q = LETTER ∨ q = A3 := by
        simp only [PAPERS, List.lookup] at hl
        split at hl
        · left
          injection hl with h1
          exact h1.symm
        · split at hl
          · right
            left
            injection hl with h1
            exact h1.symm
          · split at hl
            · right
              right
              injection hl with h1
              exact h1.symm
            · exact absurd hl (by simp)
      rcases hq with rfl | rfl | rfl <;> constructor <;>
        norm_num [A4, LETTER, A3, mmPt, inchPt]
  · intro q hq
    simp only [PAPERS, List.mem_cons, List.not_mem_nil, or_false] at hq
    rcases hq with rfl | rfl | rfl <;> constructor <;>
      norm_num [A4, LETTER, A3, mmPt, inchPt]

/-- Witness for the amended C9 at the named paper "a4". -/
theorem resolver_paper_nonneg_witness :
    resolvePaper "a4" = .ok A4 ∧
    ((0 ≤ A4.w ∧ 0 ≤ A4.h) ∧ ∀ q ∈ PAPERS, 0 < q.2.w ∧ 0 < q.2.h) :=
  ⟨rfl, resolver_paper_nonneg "a4" A4 rfl⟩

/-! ## C6 -/

/-- C6: the mm, cm and in conversion paths agree on equal physical sizes:
"210x297mm" and "21x29.7cm" parse to exactly the same PaperSize, and the
15-digit inch spec of the same physical size parses to a PaperSize whose
dimensions are within 1e-6 pt of it (a decimal inch spec can only
approximate 210 mm, so agreement is up to floating tolerance). -/
theorem unit_paths_agree :
    parse_custom_paper "210x297mm" = parse_custom_paper "21x29.7cm" ∧
    ∃ p, parse_custom_paper "8.26771653543307x11.6929133858268in" = .ok p ∧
      |p.w - 210 * mmPt| < 1 / 1000000 ∧ |p.h - 297 * mmPt| < 1 / 1000000 := by
  constructor
  · have h1 : regex_match "210x297mm" = some (['2','1','0'], ['2','9','7'], some "mm") := by
      decide
    have h2 : regex_match "21x29.7cm" = some (['2','1'], ['2','9','.','7'], some "cm") := by
      decide
    have e210 : pyFloat ['2','1','0'] = 210 := by
      have t1 : takeDigits ['2','1','0'] = (['2','1','0'], []) := by decide
      have t2 : digitsVal ['2','1','0'] = 210 := by decide
      simp [pyFloat, t1, t2]
    have e297 : pyFloat ['2','9','7'] = 297 := by
      have t1 : takeDigits ['2','9','7'] = (['2','9','7'], []) := by decide
      have t2 : digitsVal ['2','9','7'] = 297 := by decide
      simp [pyFloat, t1, t2]
    have e21 : pyFloat ['2','1'] = 21 := by
      have t1 : takeDigits ['2','1'] = (['2','1'], []) := by decide
      have t2 : digitsVal ['2','1'] = 21 := by decide
      simp [pyFloat, t1, t2]
    have e297d : pyFloat ['2','9','.','7'] = 297 / 10 := by
      have t1 : takeDigits ['2','9','.','7'] = (['2','9'], ['.','7']) := by decide
      have t2 : takeDigits ['7'] = (['7'], []) := by decide
      have t3 : digitsVal ['2','9'] = 29 := by decide
      have t4 : digitsVal ['7'] = 7 := by decide
      simp only [pyFloat, t1, t2, t3, t4, List.length_cons, List.length_nil]
      norm_num
    unfold parse_custom_paper
    rw [h1, h2]
    simp only [e210, e297, e21, e297d]
    norm_num [PaperSize.mk.injEq]
    rw [if_neg (by decide)]
  · have h3 : regex_match "8.26771653543307x11.6929133858268in" =
        some (['8','.','2','6','7','7','1','6','5','3','5','4','3','3','0','7'], ['1','1','.','6','9','2','9','1','3','3','8','5','8','2','6','8'], some "in") := by decide
    have ew : pyFloat ['8','.','2','6','7','7','1','6','5','3','5','4','3','3','0','7'] = 8 + 26771653543307 / 10 ^ 14 := by
      have t1 : takeDigits ['8','.','2','6','7','7','1','6','5','3','5','4','3','3','0','7'] = (['8'], ['.','2','6','7','7','1','6','5','3','5','4','3','3','0','7']) := by decide
      have t2 : takeDigits ['2','6','7','7','1','6','5','3','5','4','3','3','0','7'] = (['2','6','7','7','1','6','5','3','5','4','3','3','0','7'], []) := by decide
      have t3 : digitsVal ['8'] = 8 := by decide
      have t4 : digitsVal ['2','6','7','7','1','6','5','3','5','4','3','3','0','7'] = 26771653543307 := by decide
      simp only [pyFloat, t1, t2, t3, t4, List.length_cons, List.length_nil]
      norm_num
    have eh : pyFloat ['1','1','.','6','9','2','9','1','3','3','8','5','8','2','6','8'] = 11 + 6929133858268 / 10 ^ 13 := by
      have t1 : takeDigits ['1','1','.','6','9','2','9','1','3','3','8','5','8','2','6','8'] = (['1','1'], ['.','6','9','2','9','1','3','3','8','5','8','2','6','8']) := by decide
      have t2 : takeDigits ['6','9','2','9','1','3','3','8','5','8','2','6','8'] = (['6','9','2','9','1','3','3','8','5','8','2','6','8'], []) := by decide
      have t3 : digitsVal ['1','1'] = 11 := by decide
      have t4 : digitsVal ['6','9','2','9','1','3','3','8','5','8','2','6','8'] = 6929133858268 := by decide
      simp only [pyFloat, t1, t2, t3, t4, List.length_cons, List.length_nil]
      norm_num
    refine ⟨⟨(8 + 26771653543307 / 10 ^ 14) * (254 / 10) * mmPt,
      (11 + 6929133858268 / 10 ^ 13) * (254 / 10) * mmPt⟩, ?_, ?_, ?_⟩
    · unfold parse_custom_paper
      rw [h3]
      simp only [ew, eh, Option.getD_some]
      rw [if_neg (by decide), if_neg (by decide)]
      simp
    · rw [abs_sub_lt_iff]
      constructor <;> norm_num [mmPt]
    · rw [abs_sub_lt_iff]
      constructor <;> norm_num [mmPt]

/-! ## C4 -/

/-- A4 portrait attempt with margin 5 mm, gap 3 mm: 3 rows × 3 cols
(usable 200×287 mm, `⌊203/66⌋ = 3` and `⌊290/91⌋ = 3`), centred origin. -/
lemma a4_attempt_portrait :
    attempt 5 3 (210 * mmPt) (297 * mmPt) = (3, 3, (15/2) * mmPt, (27/2) * mmPt) := by
  unfold attempt
  norm_num [mmPt, CARD_W_MM, CARD_H_MM, Prod.ext_iff]

/-- A4 landscape attempt: 2 rows × 4 cols (`⌊290/66⌋ = 4`, `⌊203/91⌋ = 2`). -/
lemma a4_attempt_landscape :
    attempt 5 3 (297 * mmPt) (210 * mmPt) = (2, 4, 18 * mmPt, (31/2) * mmPt) := by
  unfold attempt
  norm_num [mmPt, CARD_W_MM, CARD_H_MM, Prod.ext_iff]

/-- On A4 with margin 5 mm and gap 3 mm, auto orientation keeps portrait:
3×3 = 9 beats the landscape 2×4 = 8. -/
lemma a4_auto_grid :
    compute_grid (210 * mmPt) (297 * mmPt) 5 3 .auto =
      ⟨3, 3, (15/2) * mmPt, (27/2) * mmPt, false⟩ := by
  unfold compute_grid
  rw [a4_attempt_portrait, a4_attempt_landscape]
  norm_num

/-- The grid shape `make_pdf` realizes (and returns) in the A4 scenario:
3 rows, 3 cols, capacity 9. -/
lemma a4_make_pdf_shape (imgs : List Bool) :
    (make_pdf imgs A4 5 3 false .auto false).rows = 3 ∧
    (make_pdf imgs A4 5 3 false .auto false).cols = 3 ∧
    (make_pdf imgs A4 5 3 false .auto false).per_page = 9 := by
  simp only [make_pdf, A4, a4_auto_grid]
  norm_num
  decide

/-- Full A4 scenario run: the reported shape is 3×3 (9 per page), the page
count is `ceil(10/9) = 2`, and the console report states exactly that. -/
lemma a4_run_proj :
    (mainRun "a4" (List.replicate 10 true) "cards_print.pdf" 5 3 false .auto false).map
      (fun r => (r.1.rows, r.1.cols, r.1.per_page, r.2.1, r.2.2)) =
    .ok (3, 3, 9, 2,
      "Done: 10 images → cards_print.pdf | 3*3 per page (9/page), 2 pages.") := by
  have hres : resolvePaper "a4" = .ok A4 := rfl
  obtain ⟨hr, hc, hp⟩ := a4_make_pdf_shape (List.replicate 10 true)
  have hlen : (List.replicate 10 true).length = 10 := by decide
  have hpg : ⌈((List.replicate 10 true).length : ℚ) / ((9 : ℕ) : ℚ)⌉ = 2 := by
    rw [hlen]
    rw [Int.ceil_eq_iff]
    norm_num
  have hrep : pageReport (List.replicate 10 true).length "cards_print.pdf" 3 3 9 2 =
      "Done: 10 images → cards_print.pdf | 3*3 per page (9/page), 2 pages." := by
    rw [hlen]
    decide
  unfold mainRun
  rw [hres]
  simp only [Except.map, show (List.replicate 10 true).isEmpty = false from by decide,
    Bool.false_eq_true, if_false, hpg, hrep, hr, hc, hp]

/-- C4 counterexample: in the scenario — 10 images, A4, margin 5 mm, gap
3 mm, orientation auto — the engine does not produce a 3×4 grid with 12
cards per page and a single page: the run actually yields 9 per page on
2 pages. -/
theorem a4_scenario_counterexample :
    ¬ ∃ (r : PdfResult) (pg : ℤ) (rep : String),
      mainRun "a4" (List.replicate 10 true) "cards_print.pdf" 5 3 false .auto false =
        .ok (r, pg, rep) ∧
      r.rows = 3 ∧ r.cols = 4 ∧ r.per_page = 12 ∧ pg = 1 := by
  rintro ⟨r, pg, rep, heq, hrows, hcols, hper, hpg⟩
  have h := a4_run_proj
  rw [heq] at h
  simp only [Except.map, Except.ok.injEq, Prod.mk.injEq] at h
  obtain ⟨-, h2, -⟩ := h
  omega

/-- C4 amended: with 10 images, A4 paper, margin 5 mm, gap 3 mm and
orientation auto, the engine produces a 3×3 grid (9 cards per page) in
portrait orientation and two pages, reporting
"10 images … 3*3 per page (9/page), 2 pages." -/
theorem a4_scenario :
    (mainRun "a4" (List.replicate 10 true) "cards_print.pdf" 5 3 false .auto false).map
      (fun r => (r.1.rows, r.1.cols, r.1.per_page, r.2.1, r.2.2)) =
      .ok (3, 3, 9, 2,
        "Done: 10 images → cards_print.pdf | 3*3 per page (9/page), 2 pages.") ∧
    (compute_grid (210 * mmPt) (297 * mmPt) 5 3 .auto).rotated = false :=
  ⟨a4_run_proj, by rw [a4_auto_grid]⟩
